import Mathlib

/-!
Shallow embedding of the single-page chorale site component (`src/src/App.tsx`)
and proofs about its routing, navigation-state machine, hero carousel,
animated counter and contact-form submission logic.

Conventions of the embedding:
* JS strings are Lean `String`s; `number | null` state is `Option Nat`.
* Environment variables (`import.meta.env.*`) are `Option String`; JS
  truthiness of such a value (`!x`) is the `truthy` predicate below
  (present and non-empty).
* Time quantities handled by the animation-frame callback are rationals;
  `Math.floor` is `Int.floor`, `Math.min` is `min`, `Math.pow` is `^`.
* Effectful handlers are embedded as pure functions from their inputs and
  the outcomes of external calls (success/failure oracles) to a record of
  the observable effects (alerts raised, provider calls made, whether the
  form was reset, console log lines).
* JSX markup is abstracted: each `renderSection` branch becomes one
  constructor of a `Rendered` view type, keeping exactly the data that
  decides which branch is taken.
-/

namespace ChoraleApp

/-- Navigation item names, from the `nav` array (icons, being foreign
components, are dropped): `nav.map(n => n.name)`. -/
def navItems : List String := ["Home", "Highlights", "About", "Contact"]

/-- Function `toPath` from `App.tsx`: section name to URL path; the JS
`switch` with a `default` arm becomes an if-chain ending in the default
result. -/
def toPath (s : String) : String :=
  if s = "Home" then "/"
  else if s = "Highlights" then "/highlights"
  else if s = "About" then "/about"
  else if s = "Contact" then "/contact"
  else "/"

/-- Function `toSection` from `App.tsx`: URL pathname to section name; the
cases `'/'` and `'/home'` fall through to the same arm, and the default
arm returns `'Home'`. -/
def toSection (pathname : String) : String :=
  if pathname = "/" ∨ pathname = "/home" then "Home"
  else if pathname = "/highlights" then "Highlights"
  else if pathname = "/about" then "About"
  else if pathname = "/contact" then "Contact"
  else "Home"

/-- One accolade line of an event (`stats` entries). -/
structure Stat where
  label : String
  value : String
deriving Repr, DecidableEq

/-- The `Event` interface of `App.tsx`. -/
structure Event where
  id : Nat
  title : String
  award : String
  image : String
  background : String
  description : String
  stats : List Stat
  gallery : List String
deriving Repr, DecidableEq

/-- The fixed `highlightsEvents` array of `App.tsx`. -/
def highlightsEvents : List Event := [
  { id := 1,
    title := "Andrea O. Veneracion International Choral Festival 2025",
    award := "Manila, Philippines",
    image := "/images/AOV25/main.webp",
    background := "from-black via-red-900/30 to-black",
    description := "The 6th Andrea O. Veneracion International Choral Festival, held at the AretÃ© in Manila, gathered 34 choirs and over 1,200 singers from around the world in a celebration of choral excellence and cultural exchange. Among the participating ensembles, Harmonia Polifonica Chorale earned distinction by receiving Double Gold Diplomas in both the Folk Song and Musica Sacra categories. Beyond the accolades, this achievement reflects the dedication and perseverance of its student-singers, who balanced academic responsibilities with rigorous artistic preparation, embodying discipline, commitment, and passion for choral music.",
    stats := [
      { label := "Gold Diploma", value := "Musica Sacra Category" },
      { label := "Gold Diploma", value := "Folk Song Category" }],
    gallery := [
      "/images/AOV25/1.webp",
      "/images/AOV25/2.webp",
      "/images/AOV25/3.webp",
      "/images/AOV25/4.webp"] },
  { id := 2,
    title := "Himig Handog International Choral Festival 2025",
    award := "Tagum City, Philippines",
    image := "/images/M25/main.webp",
    background := "from-red-950 via-orange-900/40 to-black",
    description := "The Himig Handog International Choral Competition 2025 is an international choral festival that gathers choirs from different regions to celebrate excellence in choral performance, musical interpretation, and cultural expression. The event features multiple competition categories and culminates in a Grand Prix round. During the competition, Harmonia Polifonica Chorale achieved 3rd Place in the Grand Prix and received distinctions in the Mixed and Folklore categories, including recognition for musical interpretation. The event highlighted artistic discipline, collaboration, and the shared passion of participating ensembles for choral music.",
    stats := [
      { label := "3rd Place", value := "Grand Prix Finals" },
      { label := "Champion", value := "Mixed Category" },
      { label := "Best Interpretation", value := "Mixed Category" },
      { label := "2nd Place", value := "Folklore Category" }],
    gallery := [
      "/images/M25/1.webp",
      "/images/M25/3.webp",
      "/images/M25/2.webp",
      "/images/M25/4.webp"] },
  { id := 3,
    title := "Himig Handog International Choral Festival 2024",
    award := "Tagum City, Philippines",
    image := "/images/M24/main.webp",
    background := "from-red-950 via-orange-900/40 to-black",
    description := "The 21st Musikahan sa Tagum Festival Himig Handog International Choir Grand Prix 2024 is a choral competition that brings together local and international choirs in a celebration of musical excellence and cultural expression. As part of the festival, participating ensembles compete in various categories, culminating in the Grand Prix Finals. Harmonia Polifonica Chorale marked its return to Musikahan sa Tagum after its last appearance in 2016, participating in the competition and earning distinctions in the Mixed and Folk categories, as well as in the Grand Prix Finals. The event highlighted the choirâ€™s renewed presence on the choral stage and its continued commitment to artistic growth and performance.",
    stats := [
      { label := "2nd Prize", value := "Grand Prix Finals" },
      { label := "2nd Prize", value := "Folk Category" },
      { label := "4th Place", value := "Mixed Category" }],
    gallery := [
      "/images/M24/1.webp",
      "/images/M24/3.webp",
      "/images/M24/2.webp",
      "/images/M24/4.webp"] },
  { id := 4,
    title := "Andrea O. Veneracion International Choral Festival 2023",
    award := "Makati City, Philippines",
    image := "/images/AOV23/main.webp",
    background := "from-red-950 via-orange-900/40 to-black",
    description := "On July 23rd, Harmonia Polifonica Chorale marked a significant milestone as it returned to the international stage at the Andrea O. Veneracion International Choral Festival in Makati City after several years of hiatus. Competing among choirs from various regions, HPC proudly earned Gold Diplomas in both the Folk Song and Mixed Choir categories, demonstrating the choirâ€™s dedication, artistry, and resilience. This event celebrated not only the choirâ€™s musical achievements but also its successful re-emergence on the international choral scene.",
    stats := [
      { label := "Gold Diploma", value := "Mixed Choir Category" },
      { label := "Gold Diploma", value := "Folk Song Category" }],
    gallery := [
      "/images/AOV23/1.webp",
      "/images/AOV23/4.webp",
      "/images/AOV23/3.webp",
      "/images/AOV23/2.webp"] }]

/-- The list `heroImages = highlightsEvents.map(event => event.image)`. -/
def heroImages : List String := highlightsEvents.map Event.image

/-! Hero carousel

The interval effect runs `setCurrentHeroIndex(prev => (prev + 1) % heroImages.length)`
every 5000 ms; the dot buttons, rendered once per entry of `heroImages`,
run `setCurrentHeroIndex(index)` for their own index. -/

/-- One interval tick of the hero carousel. -/
def heroTick (prev : Nat) : Nat := (prev + 1) % heroImages.length

/-- A single update of `currentHeroIndex`: either the interval tick, or a
dot button, which exists only for an index of `heroImages`. -/
inductive HeroStep : Nat → Nat → Prop
  | tick (i : Nat) : HeroStep i (heroTick i)
  | dot (i j : Nat) (h : j < heroImages.length) : HeroStep i j

/-- Values `currentHeroIndex` can reach: it starts at 0 (`useState(0)`)
and evolves by `HeroStep`. -/
inductive HeroReachable : Nat → Prop
  | init : HeroReachable 0
  | step {i j : Nat} : HeroReachable i → HeroStep i j → HeroReachable j

/-! Section rendering

`renderSection` first resolves `selectedEventId` (a JS `number | null`;
`0` is falsy, so `selectedEventId ? … : null` yields `null` for `0`) via
`highlightsEvents.find`, rendering the detail view when it resolves;
otherwise it switches on `activeSection`. Each branch's markup is
abstracted to one constructor carrying the data that picks the branch. -/

/-- Abstracted result of `renderSection` / `renderEventDetail`. -/
inductive Rendered where
  | eventDetail (e : Event)
  | home
  | highlightsList (events : List Event)
  | about
  | contact
  | nullView
deriving Repr, DecidableEq

/-- The `switch (activeSection)` part of `renderSection` (the branch taken
when no event is selected); the `default` arm returns `null`. -/
def sectionView (activeSection : String) : Rendered :=
  if activeSection = "Home" then .home
  else if activeSection = "Highlights" then .highlightsList highlightsEvents
  else if activeSection = "About" then .about
  else if activeSection = "Contact" then .contact
  else .nullView

/-- Function `renderSection` from `App.tsx`:
`selectedEvent = selectedEventId ? highlightsEvents.find(e => e.id === selectedEventId) ?? null : null`,
rendered as `renderEventDetail(selectedEvent)` when non-null. -/
def renderSection (activeSection : String) (selectedEventId : Option Nat) : Rendered :=
  let selectedEvent : Option Event :=
    match selectedEventId with
    | none => none
    | some id => if id = 0 then none else highlightsEvents.find? (fun e => e.id == id)
  match selectedEvent with
  | some e => .eventDetail e
  | none => sectionView activeSection

/-! Navigation / selection state machine -/

/-- The two pieces of component state the invariants of the spec concern. -/
structure AppState where
  activeSection : String
  selectedEventId : Option Nat
deriving Repr, DecidableEq

/-- The state transitions present in the component:
* `urlChange p`: the location effect sets `activeSection` to `toSection(p)`;
* `navClick name`: a nav-bar button (one per entry of `nav`) runs
  `setActiveSection(name); setSelectedEventId(null)`;
* `explore e`: the per-event button in the Highlights list runs
  `setSelectedEventId(event.id)`;
* `backFromDetail`: the back button runs `setSelectedEventId(null)`;
* `aboutButton`: the Home hero button runs `setActiveSection('About')`. -/
inductive AppAction where
  | urlChange (pathname : String)
  | navClick (name : String) (h : name ∈ navItems)
  | explore (e : Event) (h : e ∈ highlightsEvents)
  | backFromDetail
  | aboutButton

/-- Effect of one action on the two state variables. -/
def step (s : AppState) : AppAction → AppState
  | .urlChange p => { s with activeSection := toSection p }
  | .navClick name _ => { activeSection := name, selectedEventId := none }
  | .explore e _ => { s with selectedEventId := some e.id }
  | .backFromDetail => { s with selectedEventId := none }
  | .aboutButton => { s with activeSection := "About" }

/-- The spec's two state invariants: the active section is one of the four
known names, and a set `selectedEventId` is the id of an entry of
`highlightsEvents`. -/
def invariantHolds (s : AppState) : Bool :=
  decide (s.activeSection ∈ navItems) &&
    match s.selectedEventId with
    | none => true
    | some id => decide (id ∈ highlightsEvents.map Event.id)

/-! Contact-form submission (`handleSubmit`)

The handler reads four environment values (`VITE_EMAILJS_SERVICE_ID`,
`VITE_EMAILJS_TEMPLATE_ID`, `VITE_EMAILJS_PUBLIC_KEY`,
`VITE_EMAILJS_REPLY_TEMPLATE_ID`), guards on their JS truthiness, and
either simulates (on `localhost` / `127.0.0.1`), alerts a configuration
error, or calls `emailjs.sendForm` and, on its success with a truthy reply
template and sender email, fires `emailjs.send` whose failure is only
logged. We embed it as a pure function of the inputs and of two oracles
giving the outcome of the provider calls, returning the observable
effects. -/

/-- JS truthiness of an optional environment string: defined and non-empty. -/
def truthy : Option String → Bool
  | none => false
  | some s => !(s == "")

/-- A provider call made by `handleSubmit`: the primary
`emailjs.sendForm(serviceId, templateId, form, publicKey)` or the
acknowledgement `emailjs.send(serviceId, replyTemplateId, replyParams, publicKey)`
(of the reply params we keep the fields that come from component state). -/
inductive SubmitCall where
  | sendForm (serviceId templateId publicKey : String)
  | sendReply (serviceId replyTemplateId publicKey toEmail fromName phone : String)
deriving Repr, DecidableEq

/-- Observable effects of one `handleSubmit` run. -/
structure SubmitOutcome where
  alerts : List String
  calls : List SubmitCall
  formReset : Bool
  logs : List String
deriving Repr, DecidableEq

/-- Function `handleSubmit` from `App.tsx`. `formPresent` is `formRef.current` being
non-null; `sendFormOk` is whether the awaited `emailjs.sendForm` resolves;
`replyOk` is whether the acknowledgement `emailjs.send` resolves. -/
def handleSubmit (serviceId templateId publicKey replyTemplateId : Option String)
    (hostname : String) (formPresent : Bool)
    (userEmail userName userPhone : String)
    (sendFormOk replyOk : Bool) : SubmitOutcome :=
  if !formPresent then
    { alerts := [], calls := [], formReset := false, logs := [] }
  else if !truthy serviceId || !truthy templateId || !truthy publicKey then
    if hostname = "localhost" ∨ hostname = "127.0.0.1" then
      { alerts := ["Simulated: Message sent!"], calls := [], formReset := true,
        logs := ["Missing EmailJS configuration", "Simulating email send on localhost."] }
    else
      { alerts := ["Email service is not configured. Please try again later."],
        calls := [], formReset := false,
        logs := ["Missing EmailJS configuration"] }
  else
    let sid := serviceId.getD ""
    let tid := templateId.getD ""
    let pk := publicKey.getD ""
    if sendFormOk then
      if truthy replyTemplateId && !(userEmail == "") then
        { alerts := ["Message sent successfully!"],
          calls := [.sendForm sid tid pk,
                    .sendReply sid (replyTemplateId.getD "") pk userEmail userName userPhone],
          formReset := true,
          logs := if replyOk then ["Auto-reply sent to " ++ userEmail]
                  else ["Auto-reply failed:"] }
      else
        { alerts := ["Message sent successfully!"],
          calls := [.sendForm sid tid pk], formReset := true, logs := [] }
    else
      { alerts := ["Failed to send message. Please try again later."],
        calls := [.sendForm sid tid pk], formReset := false,
        logs := ["EmailJS send error:"] }

/-- Whether an outcome contains the primary `emailjs.sendForm` call. -/
def SubmitOutcome.sendFormCalled (o : SubmitOutcome) : Bool :=
  o.calls.any fun c => match c with
    | .sendForm _ _ _ => true
    | _ => false

/-- Whether an outcome contains the acknowledgement `emailjs.send` call. -/
def SubmitOutcome.replyCalled (o : SubmitOutcome) : Bool :=
  o.calls.any fun c => match c with
    | .sendReply _ _ _ _ _ _ => true
    | _ => false

/-! Animated counter

`animate(timestamp)` computes
`progress = Math.min((timestamp - startTime) / duration, 1)`,
`easeOutQuart = 1 - Math.pow(1 - progress, 4)`,
sets the count to `Math.floor(easeOutQuart * target)`, and schedules the
next frame iff `progress < 1`. Targets used by the component are natural
numbers (20, 100, 39). -/

/-- The easing curve `1 - Math.pow(1 - progress, 4)`. -/
def easeOutQuart (progress : ℚ) : ℚ := 1 - (1 - progress) ^ 4

/-- Value `progress` of a frame at `timestamp`, given `startTime` and `duration`. -/
def counterProgress (timestamp startTime duration : ℚ) : ℚ :=
  min ((timestamp - startTime) / duration) 1

/-- The count set by the frame: `Math.floor(easeOutQuart * target)`. -/
def counterCount (timestamp startTime duration : ℚ) (target : ℕ) : ℤ :=
  ⌊easeOutQuart (counterProgress timestamp startTime duration) * (target : ℚ)⌋

/-- Whether the frame schedules another one: `progress < 1`. -/
def counterSchedulesNext (timestamp startTime duration : ℚ) : Prop :=
  counterProgress timestamp startTime duration < 1

/-! Theorems -/

/-- C1: the URL-path/section mapping is a one-to-one correspondence on the
four sections: `toSection` inverts `toPath` on each section name, and
`toPath` inverts `toSection` on each of the four paths. -/
theorem path_section_one_to_one :
    toSection (toPath "Home") = "Home" ∧
    toSection (toPath "Highlights") = "Highlights" ∧
    toSection (toPath "About") = "About" ∧
    toSection (toPath "Contact") = "Contact" ∧
    toPath (toSection "/") = "/" ∧
    toPath (toSection "/highlights") = "/highlights" ∧
    toPath (toSection "/about") = "/about" ∧
    toPath (toSection "/contact") = "/contact" := by decide

/-- C2: when at least one provider configuration value is absent (falsy)
and the host is neither localhost nor 127.0.0.1, a submission raises only
the configuration-missing alert and makes no provider call. -/
theorem missing_config_nonlocal_alert_no_calls
    (serviceId templateId publicKey replyTemplateId : Option String)
    (hostname : String) (userEmail userName userPhone : String) (sendFormOk replyOk : Bool)
    (hcfg : truthy serviceId = false ∨ truthy templateId = false ∨ truthy publicKey = false)
    (h1 : hostname ≠ "localhost") (h2 : hostname ≠ "127.0.0.1") :
    (handleSubmit serviceId templateId publicKey replyTemplateId hostname true
        userEmail userName userPhone sendFormOk replyOk).alerts =
      ["Email service is not configured. Please try again later."] ∧
    (handleSubmit serviceId templateId publicKey replyTemplateId hostname true
        userEmail userName userPhone sendFormOk replyOk).calls = [] := by
  have hb : (!truthy serviceId || !truthy templateId || !truthy publicKey) = true := by
    rcases hcfg with h | h | h <;> simp [h]
  unfold handleSubmit
  simp [hb, h1, h2]

/-- Witness for C2: all three configuration values absent on a production
host. -/
theorem missing_config_nonlocal_alert_no_calls_witness :
    (handleSubmit none none none none "harmonia.example" true "" "" "" false false).alerts =
      ["Email service is not configured. Please try again later."] ∧
    (handleSubmit none none none none "harmonia.example" true "" "" "" false false).calls = [] :=
  missing_config_nonlocal_alert_no_calls none none none none "harmonia.example" "" "" ""
    false false (Or.inl rfl) (by decide) (by decide)

/-- C3: every value `currentHeroIndex` can reach from its initial value 0
through interval ticks (advance by one modulo the list length) and dot
clicks (indices of existing images) is a valid index into `heroImages`. -/
theorem hero_index_in_bounds (i : Nat) (h : HeroReachable i) : i < heroImages.length := by
  induction h with
  | init => decide
  | step _ hs ih =>
    cases hs with
    | tick => exact Nat.mod_lt _ (by decide)
    | dot j hj => exact hj

/-- Witness for C3: the initial index 0 is reachable and in bounds. -/
theorem hero_index_in_bounds_witness : 0 < heroImages.length :=
  hero_index_in_bounds 0 HeroReachable.init

/-- C4: on any frame whose elapsed time reaches or exceeds the duration,
the count set equals the target exactly and no further frame is
scheduled. -/
theorem counter_final_frame_hits_target (timestamp startTime duration : ℚ) (target : ℕ)
    (hd : 0 < duration) (hfin : startTime + duration ≤ timestamp) :
    counterCount timestamp startTime duration target = (target : ℤ) ∧
    ¬ counterSchedulesNext timestamp startTime duration := by
  have h1 : (1 : ℚ) ≤ (timestamp - startTime) / duration := by
    rw [le_div_iff₀ hd]; linarith
  have hp : counterProgress timestamp startTime duration = 1 := by
    unfold counterProgress
    exact min_eq_right h1
  constructor
  · unfold counterCount
    rw [hp]
    simp [easeOutQuart]
  · unfold counterSchedulesNext
    rw [hp]
    exact lt_irrefl 1

/-- Witness for C4: a 2000 ms animation toward target 20 ends at 20 on the
frame at 2000 ms and stops. -/
theorem counter_final_frame_hits_target_witness :
    counterCount 2000 0 2000 20 = ((20 : ℕ) : ℤ) ∧ ¬ counterSchedulesNext 2000 0 2000 :=
  counter_final_frame_hits_target 2000 0 2000 20 (by norm_num) (by norm_num)

/-- C5 counterexample: two frames of the 2000 ms animation toward target
20, at 1800 ms and 1900 ms, both schedule a next frame (pre-termination),
yet set the same count 19 — the count on the later frame is not strictly
greater than on the earlier one. -/
theorem counter_strict_increase_cex :
    (1800 : ℚ) < 1900 ∧
    counterSchedulesNext 1800 0 2000 ∧
    counterSchedulesNext 1900 0 2000 ∧
    ¬ (counterCount 1800 0 2000 20 < counterCount 1900 0 2000 20) := by
  refine ⟨by norm_num, ?_, ?_, ?_⟩ <;>
    norm_num [counterSchedulesNext, counterProgress, counterCount, easeOutQuart]

/-- C5 (amended): across frames of a started counter, the count set on the
later frame is greater than or equal to the one set on the earlier frame
(monotone non-decreasing, not strictly increasing). -/
theorem counter_monotone_frames (t1 t2 startTime duration : ℚ) (target : ℕ)
    (hd : 0 < duration) (h12 : t1 ≤ t2) :
    counterCount t1 startTime duration target ≤ counterCount t2 startTime duration target := by
  have hp12 : counterProgress t1 startTime duration ≤ counterProgress t2 startTime duration := by
    unfold counterProgress
    refine min_le_min ?_ le_rfl
    exact div_le_div_of_nonneg_right (by linarith) hd.le
  have hp2 : counterProgress t2 startTime duration ≤ 1 := min_le_right _ _
  have hp1 : counterProgress t1 startTime duration ≤ 1 := min_le_right _ _
  have hease : easeOutQuart (counterProgress t1 startTime duration) ≤
      easeOutQuart (counterProgress t2 startTime duration) := by
    unfold easeOutQuart
    have hpow : (1 - counterProgress t2 startTime duration) ^ 4 ≤
        (1 - counterProgress t1 startTime duration) ^ 4 :=
      pow_le_pow_left₀ (by linarith) (by linarith) 4
    linarith
  unfold counterCount
  exact Int.floor_le_floor (mul_le_mul_of_nonneg_right hease (Nat.cast_nonneg target))

/-- Witness for C5 (amended): the counts at 1800 ms and 1900 ms of the
2000 ms animation are in non-decreasing order. -/
theorem counter_monotone_frames_witness :
    counterCount 1800 0 2000 20 ≤ counterCount 1900 0 2000 20 :=
  counter_monotone_frames 1800 1900 0 2000 20 (by norm_num) (by norm_num)

/-- C6: with configuration present, a failing `emailjs.sendForm` yields
exactly the generic failure alert, exactly one delivery attempt and no
acknowledgement call, no form reset, and only an error log — nothing is
persisted or retried. -/
theorem send_failure_one_attempt_error_alert
    (serviceId templateId publicKey replyTemplateId : Option String)
    (hostname : String) (userEmail userName userPhone : String) (replyOk : Bool)
    (h1 : truthy serviceId = true) (h2 : truthy templateId = true)
    (h3 : truthy publicKey = true) :
    handleSubmit serviceId templateId publicKey replyTemplateId hostname true
        userEmail userName userPhone false replyOk =
      { alerts := ["Failed to send message. Please try again later."],
        calls := [SubmitCall.sendForm (serviceId.getD "") (templateId.getD "") (publicKey.getD "")],
        formReset := false,
        logs := ["EmailJS send error:"] } := by
  unfold handleSubmit
  simp [h1, h2, h3]

/-- Witness for C6: a concrete configured submission whose delivery call
fails. -/
theorem send_failure_one_attempt_error_alert_witness :
    handleSubmit (some "svc") (some "tpl") (some "key") none "localhost" true
        "a@b.c" "" "" false true =
      { alerts := ["Failed to send message. Please try again later."],
        calls := [SubmitCall.sendForm "svc" "tpl" "key"],
        formReset := false,
        logs := ["EmailJS send error:"] } :=
  send_failure_one_attempt_error_alert (some "svc") (some "tpl") (some "key") none
    "localhost" "a@b.c" "" "" true rfl rfl rfl

/-- C7: for any id present in `highlightsEvents`, `renderSection` with that
id selected renders the detail view of the event carrying that id, and with
no selection it renders the section view — the list for Highlights. -/
theorem selected_event_detail_view (s : String) (id : Nat)
    (hid : id ∈ highlightsEvents.map Event.id) :
    (∃ e, e ∈ highlightsEvents ∧ e.id = id ∧
      renderSection s (some id) = Rendered.eventDetail e) ∧
    renderSection s none = sectionView s ∧
    sectionView "Highlights" = Rendered.highlightsList highlightsEvents := by
  refine ⟨?_, rfl, rfl⟩
  have h4 : id = 1 ∨ id = 2 ∨ id = 3 ∨ id = 4 := by
    have hm : highlightsEvents.map Event.id = [1, 2, 3, 4] := rfl
    rw [hm] at hid
    simpa using hid
  rcases h4 with h | h | h | h <;> subst h
  · exact ⟨highlightsEvents[0], List.getElem_mem _, rfl, rfl⟩
  · exact ⟨highlightsEvents[1], List.getElem_mem _, rfl, rfl⟩
  · exact ⟨highlightsEvents[2], List.getElem_mem _, rfl, rfl⟩
  · exact ⟨highlightsEvents[3], List.getElem_mem _, rfl, rfl⟩

/-- Witness for C7: selecting id 1 in the Highlights section. -/
theorem selected_event_detail_view_witness :
    (∃ e, e ∈ highlightsEvents ∧ e.id = 1 ∧
      renderSection "Highlights" (some 1) = Rendered.eventDetail e) ∧
    renderSection "Highlights" none = sectionView "Highlights" ∧
    sectionView "Highlights" = Rendered.highlightsList highlightsEvents :=
  selected_event_detail_view "Highlights" 1 (by decide)

/-- Helper: `toSection` only produces the four known section names. -/
theorem toSection_mem_navItems (p : String) : toSection p ∈ navItems := by
  unfold toSection
  split_ifs <;> decide

/-- C8: every state transition of the component preserves the two state
invariants — the active section is one of the four known names and a set
selected event id references an entry of `highlightsEvents`. -/
theorem transitions_preserve_invariants (s : AppState) (a : AppAction)
    (h : invariantHolds s = true) : invariantHolds (step s a) = true := by
  rw [invariantHolds, Bool.and_eq_true] at h
  obtain ⟨hact, hsel⟩ := h
  cases a with
  | urlChange p =>
    rw [invariantHolds, Bool.and_eq_true]
    exact ⟨decide_eq_true (toSection_mem_navItems p), hsel⟩
  | navClick name hn =>
    rw [invariantHolds, Bool.and_eq_true]
    exact ⟨decide_eq_true hn, rfl⟩
  | explore e he =>
    rw [invariantHolds, Bool.and_eq_true]
    exact ⟨hact, decide_eq_true (List.mem_map_of_mem Event.id he)⟩
  | backFromDetail =>
    rw [invariantHolds, Bool.and_eq_true]
    exact ⟨hact, rfl⟩
  | aboutButton =>
    rw [invariantHolds, Bool.and_eq_true]
    exact ⟨decide_eq_true (show "About" ∈ navItems by decide), hsel⟩

/-- Witness for C8: a nav click from the initial state keeps the
invariants. -/
theorem transitions_preserve_invariants_witness :
    invariantHolds (step ⟨"Home", none⟩ (AppAction.navClick "About" (by decide))) = true :=
  transitions_preserve_invariants ⟨"Home", none⟩
    (AppAction.navClick "About" (by decide)) (by decide)

/-- C9: `toSection` is total and defaults to Home — every pathname other
than the three non-Home paths (including the alias `/home` and any unknown
path) maps to Home. -/
theorem toSection_total_defaults_home (p : String)
    (h1 : p ≠ "/highlights") (h2 : p ≠ "/about") (h3 : p ≠ "/contact") :
    toSection p = "Home" := by
  unfold toSection
  split_ifs <;> simp_all

/-- Witness for C9: the undocumented alias `/home` selects Home. -/
theorem toSection_total_defaults_home_witness : toSection "/home" = "Home" :=
  toSection_total_defaults_home "/home" (by decide) (by decide) (by decide)

/-- C10: the acknowledgement `emailjs.send` is attempted iff the primary
`emailjs.sendForm` was made and succeeded, a reply template id is truthy,
and the sender email is non-empty; and the acknowledgement result never
changes the user-visible outcome (alerts, calls, form reset), with the
success alert shown and the form reset whenever it is attempted. -/
theorem auto_reply_iff_and_outcome_unchanged
    (serviceId templateId publicKey replyTemplateId : Option String)
    (hostname : String) (formPresent : Bool) (userEmail userName userPhone : String)
    (sendFormOk replyOk : Bool) :
    ((handleSubmit serviceId templateId publicKey replyTemplateId hostname formPresent
          userEmail userName userPhone sendFormOk replyOk).replyCalled
        = ((handleSubmit serviceId templateId publicKey replyTemplateId hostname formPresent
              userEmail userName userPhone sendFormOk replyOk).sendFormCalled
            && sendFormOk && truthy replyTemplateId && !(userEmail == "")))
    ∧ (handleSubmit serviceId templateId publicKey replyTemplateId hostname formPresent
          userEmail userName userPhone sendFormOk true).alerts
        = (handleSubmit serviceId templateId publicKey replyTemplateId hostname formPresent
            userEmail userName userPhone sendFormOk false).alerts
    ∧ (handleSubmit serviceId templateId publicKey replyTemplateId hostname formPresent
          userEmail userName userPhone sendFormOk true).calls
        = (handleSubmit serviceId templateId publicKey replyTemplateId hostname formPresent
            userEmail userName userPhone sendFormOk false).calls
    ∧ (handleSubmit serviceId templateId publicKey replyTemplateId hostname formPresent
          userEmail userName userPhone sendFormOk true).formReset
        = (handleSubmit serviceId templateId publicKey replyTemplateId hostname formPresent
            userEmail userName userPhone sendFormOk false).formReset
    ∧ ((handleSubmit serviceId templateId publicKey replyTemplateId hostname formPresent
          userEmail userName userPhone sendFormOk replyOk).replyCalled = true →
        (handleSubmit serviceId templateId publicKey replyTemplateId hostname formPresent
            userEmail userName userPhone sendFormOk replyOk).alerts
          = ["Message sent successfully!"] ∧
        (handleSubmit serviceId templateId publicKey replyTemplateId hostname formPresent
            userEmail userName userPhone sendFormOk replyOk).formReset = true) := by
  cases formPresent <;> cases sendFormOk <;>
    simp [handleSubmit, SubmitOutcome.replyCalled, SubmitOutcome.sendFormCalled] <;>
    split_ifs <;> simp_all

/-- Witness for C10: a successful configured submission with a reply
template and a sender email fires the acknowledgement, after the success
alert and the form reset. -/
theorem auto_reply_iff_and_outcome_unchanged_witness :
    (handleSubmit (some "svc") (some "tpl") (some "key") (some "rpl") "h" true
        "a@b.c" "" "" true false).alerts = ["Message sent successfully!"] ∧
    (handleSubmit (some "svc") (some "tpl") (some "key") (some "rpl") "h" true
        "a@b.c" "" "" true false).formReset = true :=
  (auto_reply_iff_and_outcome_unchanged (some "svc") (some "tpl") (some "key") (some "rpl")
    "h" true "a@b.c" "" "" true false).2.2.2.2 rfl

end ChoraleApp
